import Mathlib

/-!
Verification of the frame codecs of the repository.

Shallow embedding of the five C source files of the repository:

* `src/project_files/examples/CyyPacket.c`        — namespace `CyyPacketC`
* `src/project_files/examples/WeaponPacket.c`     — namespace `WeaponPacketC`
* `src/project_files/generated/CyyPacket_header_send.c`  — namespace `CyyHeaderSendC`
* `src/project_files/generated/Cyy_Packet_header_send.cpp` — namespace `CyyHeaderSendCpp`
* `src/project_files/generated/Dart_aim_Packet_recv.c`   — namespace `DartAimRecvC`

Bytes are modelled as `Nat` (meaningful values `< 256`); a buffer is a
`List Nat`.  A struct field of byte width 4 (C `float` / `int32_t`) is
modelled by the 4-byte object representation that `memcpy` copies, i.e. a
`List Nat` of length 4; the numeric interpretation of those bytes never
matters to the codec.  The C `uint32_t` checksum accumulator is modelled
by explicit reduction modulo `2^32`.
-/

namespace CyyPacketC

/-- C constant `static const int PACKET_SIZE = 12;`. -/
def PACKET_SIZE : Nat := 12

/-- C constant `static const unsigned char PACKET_HEADER = 0xAA;`. -/
def PACKET_HEADER : Nat := 0xAA

/-- C constant `static const unsigned char PACKET_FOOTER = 0x55;`. -/
def PACKET_FOOTER : Nat := 0x55

/-- C constant `static const int PACKET_TOTAL_SIZE = PACKET_SIZE + 3;`. -/
def PACKET_TOTAL_SIZE : Nat := PACKET_SIZE + 3

/-- Model of `send_Verify(buf, len)`: sums the bytes into a `uint32_t` accumulator
(wrapping modulo `2^32`) and returns the low 8 bits (`s & 0xFF`).
The C `len` argument is the length of the list passed in. -/
def send_Verify (buf : List Nat) : Nat :=
  (buf.foldl (fun s b => (s + b) % 4294967296) 0) % 256

/-- The `CyyPacket` struct: `float my; int32_t name; float target;`,
each field given by its 4-byte object representation. -/
structure CyyPacket where
  my : List Nat
  name : List Nat
  target : List Nat
deriving DecidableEq, Repr

/-- Model of `encode(in, out)`: writes `PACKET_HEADER`, then `memcpy`s the three
4-byte fields, then the checksum `send_Verify(out + 1, PACKET_SIZE)`
computed over the 12 payload bytes just written, then `PACKET_FOOTER`. -/
def encode (v : CyyPacket) : List Nat :=
  let front := PACKET_HEADER :: (v.my ++ v.name ++ v.target)
  let checksum := send_Verify ((front.drop 1).take PACKET_SIZE)
  front ++ [checksum, PACKET_FOOTER]

/-- Model of `recive_Verify(buf, len)`: returns 1 (`true`) iff the length is
`PACKET_TOTAL_SIZE`, `buf[0]` is the header, `buf[len-1]` is the footer,
and the recomputed payload checksum equals `buf[1 + PACKET_SIZE]`;
each failing check returns 0 (`false`) immediately. -/
def recive_Verify (buf : List Nat) : Bool :=
  if buf.length ≠ PACKET_TOTAL_SIZE then false
  else if buf.getD 0 0 ≠ PACKET_HEADER then false
  else if buf.getD (buf.length - 1) 0 ≠ PACKET_FOOTER then false
  else decide (send_Verify ((buf.drop 1).take PACKET_SIZE) = buf.getD (1 + PACKET_SIZE) 0)

/-- Model of `decode(in, out)`: skips the header byte and `memcpy`s the three
4-byte fields out of the payload region, with no validation of its own
(the C comment reads "assumes `recive_Verify` has passed"). -/
def decode (buf : List Nat) : CyyPacket :=
  let p := buf.drop 1
  { my := p.take 4, name := (p.drop 4).take 4, target := ((p.drop 4).drop 4).take 4 }

/-- The four caller-distinguishable failure modes named by the error
taxonomy of the spec for the validating decode path. -/
inductive FrameError where
  | LengthMismatch
  | BadHeader
  | BadFooter
  | ChecksumMismatch
deriving DecidableEq, Repr

/-- Which of the four early-exit `return 0` sites of `recive_Verify`
fires, in the textual check order of the source (`none` when all four checks pass).
This tags the control flow of `recive_Verify`; it is NOT a value the C
caller receives — the C function collapses all four cases to `0`. -/
def recive_Classify (buf : List Nat) : Option FrameError :=
  if buf.length ≠ PACKET_TOTAL_SIZE then some .LengthMismatch
  else if buf.getD 0 0 ≠ PACKET_HEADER then some .BadHeader
  else if buf.getD (buf.length - 1) 0 ≠ PACKET_FOOTER then some .BadFooter
  else if send_Verify ((buf.drop 1).take PACKET_SIZE) ≠ buf.getD (1 + PACKET_SIZE) 0 then
    some .ChecksumMismatch
  else none

/-- The check-then-parse usage the source prescribes (the comment on `decode`
reads "assumes `recive_Verify` has passed"): run `recive_Verify`, and only on
success run `decode`. -/
def decodeChecked (buf : List Nat) : Option CyyPacket :=
  if recive_Verify buf then some (decode buf) else none

end CyyPacketC

namespace WeaponPacketC

/-- C constant `static const int PACKET_SIZE = 20;`. -/
def PACKET_SIZE : Nat := 20

/-- The `WeaponPacket` struct: `char aim[16]; int32_t fire;`, the array as
its 16 bytes and `fire` as its 4-byte object representation. -/
structure WeaponPacket where
  aim : List Nat
  fire : List Nat
deriving DecidableEq, Repr

/-- Model of `encode(in, out)`: `memcpy`s the 16 `aim` bytes then the 4 `fire`
bytes — no header, no checksum, no footer. -/
def encode (v : WeaponPacket) : List Nat :=
  v.aim ++ v.fire

/-- Model of `decode(in, out)`: `memcpy`s bytes 0..15 into `aim` and bytes 16..19
into `fire`, with no validation of any kind. -/
def decode (buf : List Nat) : WeaponPacket :=
  { aim := buf.take 16, fire := (buf.drop 16).take 4 }

end WeaponPacketC

namespace CyyHeaderSendC

/-- C constant `static const int PACKET_SIZE = 12;`. -/
def PACKET_SIZE : Nat := 12

/-- C constant `static const unsigned char PACKET_HEADER = 0xAA;`. -/
def PACKET_HEADER : Nat := 0xAA

/-- C constant `static const unsigned char PACKET_FOOTER = 0x55;`. -/
def PACKET_FOOTER : Nat := 0x55

/-- Model of `send_Verify(buf, len)` of `CyyPacket_header_send.c`: identical
hand-copied checksum — wrapping `uint32_t` sum, low 8 bits returned. -/
def send_Verify (buf : List Nat) : Nat :=
  (buf.foldl (fun s b => (s + b) % 4294967296) 0) % 256

/-- The `CyyPacket_header` struct: `float my; int32_t name; float target;`. -/
structure CyyPacket_header where
  my : List Nat
  name : List Nat
  target : List Nat
deriving DecidableEq, Repr

/-- Model of `encode(in, out)` of `CyyPacket_header_send.c`: header byte, three
4-byte `memcpy`s, checksum over `out + 1 .. out + PACKET_SIZE`, footer. -/
def encode (v : CyyPacket_header) : List Nat :=
  let front := PACKET_HEADER :: (v.my ++ v.name ++ v.target)
  let checksum := send_Verify ((front.drop 1).take PACKET_SIZE)
  front ++ [checksum, PACKET_FOOTER]

end CyyHeaderSendC

namespace CyyHeaderSendCpp

/-- C constant `static const int PACKET_SIZE = 12;`. -/
def PACKET_SIZE : Nat := 12

/-- C constant `static const unsigned char PACKET_HEADER = 0xAA;`. -/
def PACKET_HEADER : Nat := 0xAA

/-- C constant `static const unsigned char PACKET_FOOTER = 0x55;`. -/
def PACKET_FOOTER : Nat := 0x55

/-- Model of `send_Verify(buf, len)` of `Cyy_Packet_header_send.cpp`: identical
hand-copied checksum. -/
def send_Verify (buf : List Nat) : Nat :=
  (buf.foldl (fun s b => (s + b) % 4294967296) 0) % 256

/-- The `Cyy_Packet_header` struct: `float my; int32_t name; float target;`. -/
structure Cyy_Packet_header where
  my : List Nat
  name : List Nat
  target : List Nat
deriving DecidableEq, Repr

/-- Model of `encode(in, out)` of `Cyy_Packet_header_send.cpp`: header byte, three
4-byte `memcpy`s, checksum over the 12 payload bytes, footer. -/
def encode (v : Cyy_Packet_header) : List Nat :=
  let front := PACKET_HEADER :: (v.my ++ v.name ++ v.target)
  let checksum := send_Verify ((front.drop 1).take PACKET_SIZE)
  front ++ [checksum, PACKET_FOOTER]

end CyyHeaderSendCpp

namespace DartAimRecvC

/-- C constant `static const int PACKET_SIZE = 16;`. -/
def PACKET_SIZE : Nat := 16

/-- C constant `static const unsigned char PACKET_HEADER = 0xAA;`. -/
def PACKET_HEADER : Nat := 0xAA

/-- C constant `static const unsigned char PACKET_FOOTER = 0x55;`. -/
def PACKET_FOOTER : Nat := 0x55

/-- Model of `send_Verify(buf, len)` of `Dart_aim_Packet_recv.c`: identical
hand-copied checksum. -/
def send_Verify (buf : List Nat) : Nat :=
  (buf.foldl (fun s b => (s + b) % 4294967296) 0) % 256

/-- Model of `recive_Verify(buf, len)` of `Dart_aim_Packet_recv.c`: length must be
`PACKET_SIZE + 3 = 19`, then header, footer and checksum checks, each
failing check returning 0 immediately. -/
def recive_Verify (buf : List Nat) : Bool :=
  if buf.length ≠ PACKET_SIZE + 3 then false
  else if buf.getD 0 0 ≠ PACKET_HEADER then false
  else if buf.getD (buf.length - 1) 0 ≠ PACKET_FOOTER then false
  else decide (send_Verify ((buf.drop 1).take PACKET_SIZE) = buf.getD (1 + PACKET_SIZE) 0)

end DartAimRecvC

/-- The wrapping `uint32_t` fold of the checksum, before the final 8-bit
truncation, is congruent modulo `2^32` to the plain arithmetic sum. -/
theorem foldl_u32_mod (buf : List Nat) :
    ∀ s : Nat, (buf.foldl (fun s b => (s + b) % 4294967296) s) % 256
      = (s + buf.sum) % 256 := by
  induction buf with
  | nil => intro s; simp
  | cons b tl ih =>
      intro s
      rw [List.foldl_cons, ih ((s + b) % 4294967296), List.sum_cons]
      omega

/-- A list of length 4 (the object representation of a 4-byte C field) is
an explicit 4-element list. -/
theorem exists_four_of_length {l : List Nat} (h : l.length = 4) :
    ∃ a b c d, l = [a, b, c, d] := by
  match l, h with
  | [a, b, c, d], _ => exact ⟨a, b, c, d, rfl⟩

/-- C3. The checksum `send_Verify` is a total function of the byte list and
always returns the low 8 bits of the plain (unbounded) arithmetic sum of
the bytes: the wrapping of the `uint32_t` accumulator never affects the
truncated result, for every byte sequence including the empty one. -/
theorem send_Verify_eq_sum_mod (buf : List Nat) :
    CyyPacketC.send_Verify buf = buf.sum % 256 := by
  unfold CyyPacketC.send_Verify
  rw [foldl_u32_mod buf 0, Nat.zero_add]

namespace CyyPacketC

/-- For fields of the C widths (4 bytes each) the checksum slice
`send_Verify(out + 1, PACKET_SIZE)` is the whole 12-byte payload, so
`encode` is the explicit frame header ‖ payload ‖ checksum ‖ footer. -/
theorem encode_eq_explicit (v : CyyPacket) (h1 : v.my.length = 4)
    (h2 : v.name.length = 4) (h3 : v.target.length = 4) :
    encode v = PACKET_HEADER :: ((v.my ++ v.name ++ v.target)
      ++ [send_Verify (v.my ++ v.name ++ v.target), PACKET_FOOTER]) := by
  have hlen : (v.my ++ v.name ++ v.target).length = 12 := by
    simp [h1, h2, h3]
  unfold encode
  simp only [List.drop_one, List.tail_cons]
  rw [List.take_of_length_le (by rw [hlen]; decide)]
  simp

/-- C1. Round-trip: for every `CyyPacket` payload (three fields of the C
byte widths 4, 4, 4), the encoded 15-byte frame passes `recive_Verify`,
and the check-then-parse decode reconstructs a payload whose three field
byte representations equal those of the input. -/
theorem cyy_decode_encode_roundtrip (v : CyyPacket) (h1 : v.my.length = 4)
    (h2 : v.name.length = 4) (h3 : v.target.length = 4) :
    recive_Verify (encode v) = true ∧ decodeChecked (encode v) = some v := by
  obtain ⟨my, name, target⟩ := v
  simp only at h1 h2 h3
  obtain ⟨a1, a2, a3, a4, rfl⟩ := exists_four_of_length h1
  obtain ⟨b1, b2, b3, b4, rfl⟩ := exists_four_of_length h2
  obtain ⟨c1, c2, c3, c4, rfl⟩ := exists_four_of_length h3
  have hv : recive_Verify
      (encode ⟨[a1, a2, a3, a4], [b1, b2, b3, b4], [c1, c2, c3, c4]⟩) = true := by
    simp [recive_Verify, encode, PACKET_SIZE, PACKET_TOTAL_SIZE, PACKET_HEADER,
      PACKET_FOOTER]
  refine ⟨hv, ?_⟩
  simp only [decodeChecked, hv, if_true]
  simp [decode, encode, PACKET_SIZE, PACKET_HEADER, PACKET_FOOTER]

/-- C1 witness: the concrete payload `{my = 1.5f, name = 42, target = -3.25f}`
(little-endian byte representations) round-trips. -/
theorem cyy_decode_encode_roundtrip_witness :
    recive_Verify (encode ⟨[0, 0, 192, 63], [42, 0, 0, 0], [0, 0, 80, 192]⟩) = true ∧
    decodeChecked (encode ⟨[0, 0, 192, 63], [42, 0, 0, 0], [0, 0, 80, 192]⟩)
      = some ⟨[0, 0, 192, 63], [42, 0, 0, 0], [0, 0, 80, 192]⟩ :=
  cyy_decode_encode_roundtrip ⟨[0, 0, 192, 63], [42, 0, 0, 0], [0, 0, 80, 192]⟩
    rfl rfl rfl

/-- C4. Layout of `encode`: for every `CyyPacket` payload (fields of the C
byte widths), the output is exactly `PACKET_TOTAL_SIZE = 15` bytes, with
header `0xAA` at offset 0, the 12 payload bytes (`my`, `name`, `target` in
order, no padding) at offsets 1..12, the checksum over the payload region
at offset 13, and footer `0x55` at offset 14; `encode` is a total
function, so it has no error path. -/
theorem cyy_encode_layout (v : CyyPacket) (h1 : v.my.length = 4)
    (h2 : v.name.length = 4) (h3 : v.target.length = 4) :
    (encode v).length = PACKET_TOTAL_SIZE ∧
    (encode v).getD 0 0 = PACKET_HEADER ∧
    ((encode v).drop 1).take 12 = v.my ++ v.name ++ v.target ∧
    (encode v).getD 13 0 = send_Verify (v.my ++ v.name ++ v.target) ∧
    (encode v).getD 14 0 = PACKET_FOOTER := by
  rw [encode_eq_explicit v h1 h2 h3]
  obtain ⟨my, name, target⟩ := v
  simp only at h1 h2 h3
  obtain ⟨a1, a2, a3, a4, rfl⟩ := exists_four_of_length h1
  obtain ⟨b1, b2, b3, b4, rfl⟩ := exists_four_of_length h2
  obtain ⟨c1, c2, c3, c4, rfl⟩ := exists_four_of_length h3
  refine ⟨?_, ?_, ?_, ?_, ?_⟩ <;>
    simp [PACKET_TOTAL_SIZE, PACKET_SIZE]

/-- C2 (amended). `recive_Verify` checks, in this order: total length,
header byte at offset 0, footer byte at the last offset, then payload
checksum; the first failing check determines the failure mode
(`recive_Classify`, the tag of the `return 0` site that fires) and later
checks are not consulted; `recive_Verify` accepts exactly when no check
fails. Every failure mode, however, reaches the caller as the same value
`false` (C `0`): the four modes are not caller-distinct. -/
theorem recive_Verify_failfast_order (buf : List Nat) :
    (recive_Verify buf = true ↔ recive_Classify buf = none) ∧
    (buf.length ≠ PACKET_TOTAL_SIZE →
      recive_Classify buf = some FrameError.LengthMismatch) ∧
    (buf.length = PACKET_TOTAL_SIZE → buf.getD 0 0 ≠ PACKET_HEADER →
      recive_Classify buf = some FrameError.BadHeader) ∧
    (buf.length = PACKET_TOTAL_SIZE → buf.getD 0 0 = PACKET_HEADER →
      buf.getD (buf.length - 1) 0 ≠ PACKET_FOOTER →
      recive_Classify buf = some FrameError.BadFooter) ∧
    (buf.length = PACKET_TOTAL_SIZE → buf.getD 0 0 = PACKET_HEADER →
      buf.getD (buf.length - 1) 0 = PACKET_FOOTER →
      send_Verify ((buf.drop 1).take PACKET_SIZE) ≠ buf.getD (1 + PACKET_SIZE) 0 →
      recive_Classify buf = some FrameError.ChecksumMismatch) ∧
    (recive_Classify buf ≠ none → recive_Verify buf = false) := by
  unfold recive_Verify recive_Classify
  split_ifs with hL hH hF hC <;> simp_all

/-- C2 witness: at the empty input the length check fails first and is the
reported failure mode. -/
theorem recive_Verify_failfast_order_witness :
    recive_Classify [] = some FrameError.LengthMismatch :=
  (recive_Verify_failfast_order []).2.1 (by decide)

/-- C2 counterexample: a 15-byte frame failing only the header check and a
15-byte frame failing only the footer check are reported to the caller
identically — `recive_Verify` returns `false` (C `0`) for both — so the
four failure modes are not reported as distinct errors. -/
theorem recive_Verify_error_collapse :
    recive_Classify [0, 0, 0, 0, 0, 0, 0, 0, 0, 0, 0, 0, 0, 0, 0x55]
      = some FrameError.BadHeader ∧
    recive_Classify [0xAA, 0, 0, 0, 0, 0, 0, 0, 0, 0, 0, 0, 0, 0, 0]
      = some FrameError.BadFooter ∧
    recive_Verify [0, 0, 0, 0, 0, 0, 0, 0, 0, 0, 0, 0, 0, 0, 0x55]
      = recive_Verify [0xAA, 0, 0, 0, 0, 0, 0, 0, 0, 0, 0, 0, 0, 0, 0] := by
  decide

/-- C5. All-or-nothing decode: the check-then-parse path produces a
payload exactly when all four validation checks pass, and then the
payload is the `decode` deserialization of the frame; when any check fails
it produces nothing, so no partially-validated payload is observable. -/
theorem decodeChecked_all_or_nothing (buf : List Nat) (p : CyyPacket) :
    decodeChecked buf = some p ↔
      (buf.length = PACKET_TOTAL_SIZE ∧ buf.getD 0 0 = PACKET_HEADER ∧
       buf.getD (buf.length - 1) 0 = PACKET_FOOTER ∧
       send_Verify ((buf.drop 1).take PACKET_SIZE) = buf.getD (1 + PACKET_SIZE) 0 ∧
       p = decode buf) := by
  unfold decodeChecked recive_Verify
  split_ifs with h <;> simp_all [eq_comm]

/-- C6. Header/footer sensitivity: overwriting the first byte of an
encoded frame with any non-header value trips the header check (and the
frame is rejected), overwriting the last byte with any non-footer value
trips the footer check (and the frame is rejected), and in both cases the
payload checksum of the altered frame still matches its checksum byte. -/
theorem cyy_header_footer_sensitivity (v : CyyPacket) (h1 : v.my.length = 4)
    (h2 : v.name.length = 4) (h3 : v.target.length = 4) (x y : Nat)
    (hx : x ≠ PACKET_HEADER) (hy : y ≠ PACKET_FOOTER) :
    recive_Classify ((encode v).set 0 x) = some FrameError.BadHeader ∧
    recive_Verify ((encode v).set 0 x) = false ∧
    send_Verify ((((encode v).set 0 x).drop 1).take PACKET_SIZE)
      = ((encode v).set 0 x).getD (1 + PACKET_SIZE) 0 ∧
    recive_Classify ((encode v).set 14 y) = some FrameError.BadFooter ∧
    recive_Verify ((encode v).set 14 y) = false ∧
    send_Verify ((((encode v).set 14 y).drop 1).take PACKET_SIZE)
      = ((encode v).set 14 y).getD (1 + PACKET_SIZE) 0 := by
  obtain ⟨my, name, target⟩ := v
  simp only at h1 h2 h3
  obtain ⟨a1, a2, a3, a4, rfl⟩ := exists_four_of_length h1
  obtain ⟨b1, b2, b3, b4, rfl⟩ := exists_four_of_length h2
  obtain ⟨c1, c2, c3, c4, rfl⟩ := exists_four_of_length h3
  simp only [PACKET_HEADER] at hx
  simp only [PACKET_FOOTER] at hy
  refine ⟨?_, ?_, ?_, ?_, ?_, ?_⟩ <;>
    simp [recive_Classify, recive_Verify, encode, hx, hy,
      PACKET_SIZE, PACKET_TOTAL_SIZE, PACKET_HEADER, PACKET_FOOTER]

/-- C6 witness: at a concrete frame, replacing the header byte by `0x00`
and the footer byte by `0x01` trip the header and footer checks. -/
theorem cyy_header_footer_sensitivity_witness :
    recive_Classify ((encode ⟨[1, 2, 3, 4], [5, 6, 7, 8], [9, 10, 11, 12]⟩).set 0 0)
      = some FrameError.BadHeader ∧
    recive_Verify ((encode ⟨[1, 2, 3, 4], [5, 6, 7, 8], [9, 10, 11, 12]⟩).set 0 0) = false ∧
    send_Verify ((((encode ⟨[1, 2, 3, 4], [5, 6, 7, 8], [9, 10, 11, 12]⟩).set 0 0).drop 1).take
        PACKET_SIZE)
      = ((encode ⟨[1, 2, 3, 4], [5, 6, 7, 8], [9, 10, 11, 12]⟩).set 0 0).getD
          (1 + PACKET_SIZE) 0 ∧
    recive_Classify ((encode ⟨[1, 2, 3, 4], [5, 6, 7, 8], [9, 10, 11, 12]⟩).set 14 1)
      = some FrameError.BadFooter ∧
    recive_Verify ((encode ⟨[1, 2, 3, 4], [5, 6, 7, 8], [9, 10, 11, 12]⟩).set 14 1) = false ∧
    send_Verify ((((encode ⟨[1, 2, 3, 4], [5, 6, 7, 8], [9, 10, 11, 12]⟩).set 14 1).drop 1).take
        PACKET_SIZE)
      = ((encode ⟨[1, 2, 3, 4], [5, 6, 7, 8], [9, 10, 11, 12]⟩).set 14 1).getD
          (1 + PACKET_SIZE) 0 :=
  cyy_header_footer_sensitivity ⟨[1, 2, 3, 4], [5, 6, 7, 8], [9, 10, 11, 12]⟩
    rfl rfl rfl 0 1 (by decide) (by decide)

/-- Lemma: `decode` reads the frame only through the 12-byte payload region at
offsets 1..12: buffers with equal payload regions decode identically. -/
theorem decode_payload_congr (b1 b2 : List Nat)
    (hag : (b1.drop 1).take 12 = (b2.drop 1).take 12) : decode b1 = decode b2 := by
  unfold decode
  have h4 : (b1.drop 1).take 4 = (b2.drop 1).take 4 := by
    have h := congrArg (List.take 4) hag
    simpa [List.take_take] using h
  have h48 : ((b1.drop 1).drop 4).take 4 = ((b2.drop 1).drop 4).take 4 := by
    have h := congrArg (fun l => (l.drop 4).take 4) hag
    simpa [List.drop_take, List.take_take] using h
  have h812 : (((b1.drop 1).drop 4).drop 4).take 4
      = (((b2.drop 1).drop 4).drop 4).take 4 := by
    have h := congrArg (fun l => (l.drop 8).take 4) hag
    simpa [List.drop_take, List.take_take, List.drop_drop] using h
  simp only [CyyPacket.mk.injEq]
  refine ⟨?_, ?_, ?_⟩
  · simpa [List.drop_one, List.drop_drop] using h4
  · simpa [List.drop_one, List.drop_drop] using h48
  · simpa [List.drop_one, List.drop_drop] using h812

/-- C7. No read beyond the declared frame length: buffers agreeing on
their first `PACKET_TOTAL_SIZE = 15` bytes decode identically, and with
equal lengths (the C `len` argument) they are also indistinguishable to
`recive_Verify` and its failure classification; both functions are total
Lean functions, so no input aborts. -/
theorem cyy_reads_within_frame (b1 b2 : List Nat)
    (hag : b1.take 15 = b2.take 15) :
    decode b1 = decode b2 ∧
    (b1.length = b2.length →
      recive_Verify b1 = recive_Verify b2 ∧ recive_Classify b1 = recive_Classify b2) := by
  constructor
  · refine decode_payload_congr b1 b2 ?_
    have h := congrArg (fun l => (l.drop 1).take 12) hag
    simpa [List.drop_take, List.take_take] using h
  · intro hlen
    by_cases h15 : b1.length = 15
    · have hb1 : b1.take 15 = b1 := List.take_of_length_le (by omega)
      have hb2 : b2.take 15 = b2 := List.take_of_length_le (by omega)
      rw [hb1, hb2] at hag
      rw [hag]
      exact ⟨rfl, rfl⟩
    · constructor
      · unfold recive_Verify
        rw [if_pos (by simpa [PACKET_TOTAL_SIZE, PACKET_SIZE] using h15),
          if_pos (by simp only [← hlen]; simpa [PACKET_TOTAL_SIZE, PACKET_SIZE] using h15)]
      · unfold recive_Classify
        rw [if_pos (by simpa [PACKET_TOTAL_SIZE, PACKET_SIZE] using h15),
          if_pos (by simp only [← hlen]; simpa [PACKET_TOTAL_SIZE, PACKET_SIZE] using h15)]

/-- C7 witness: two 16-byte buffers differing only at offset 15 (beyond
the declared frame length) are indistinguishable to the codec. -/
theorem cyy_reads_within_frame_witness :
    decode [0, 0, 0, 0, 0, 0, 0, 0, 0, 0, 0, 0, 0, 0, 0, 7]
      = decode [0, 0, 0, 0, 0, 0, 0, 0, 0, 0, 0, 0, 0, 0, 0, 9] ∧
    (([0, 0, 0, 0, 0, 0, 0, 0, 0, 0, 0, 0, 0, 0, 0, 7] : List Nat).length
        = ([0, 0, 0, 0, 0, 0, 0, 0, 0, 0, 0, 0, 0, 0, 0, 9] : List Nat).length →
      recive_Verify [0, 0, 0, 0, 0, 0, 0, 0, 0, 0, 0, 0, 0, 0, 0, 7]
        = recive_Verify [0, 0, 0, 0, 0, 0, 0, 0, 0, 0, 0, 0, 0, 0, 0, 9] ∧
      recive_Classify [0, 0, 0, 0, 0, 0, 0, 0, 0, 0, 0, 0, 0, 0, 0, 7]
        = recive_Classify [0, 0, 0, 0, 0, 0, 0, 0, 0, 0, 0, 0, 0, 0, 0, 9]) :=
  cyy_reads_within_frame
    [0, 0, 0, 0, 0, 0, 0, 0, 0, 0, 0, 0, 0, 0, 0, 7]
    [0, 0, 0, 0, 0, 0, 0, 0, 0, 0, 0, 0, 0, 0, 0, 9] (by decide)

/-- C8. Noninterference of framing bytes with the decoded value: two
15-byte buffers agreeing on the payload region (offsets 1..12) decode to
identical payload structs — the result does not depend on the header,
checksum, or footer byte. -/
theorem cyy_decode_depends_only_on_payload (b1 b2 : List Nat)
    (_hl1 : b1.length = 15) (_hl2 : b2.length = 15)
    (hag : (b1.drop 1).take 12 = (b2.drop 1).take 12) :
    decode b1 = decode b2 :=
  decode_payload_congr b1 b2 hag

/-- C8 witness: two concrete 15-byte buffers with equal payload regions
but different header, checksum and footer bytes decode identically. -/
theorem cyy_decode_depends_only_on_payload_witness :
    decode [0xAA, 1, 2, 3, 4, 5, 6, 7, 8, 9, 10, 11, 12, 78, 0x55]
      = decode [0, 1, 2, 3, 4, 5, 6, 7, 8, 9, 10, 11, 12, 99, 9] :=
  cyy_decode_depends_only_on_payload
    [0xAA, 1, 2, 3, 4, 5, 6, 7, 8, 9, 10, 11, 12, 78, 0x55]
    [0, 1, 2, 3, 4, 5, 6, 7, 8, 9, 10, 11, 12, 99, 9]
    (by decide) (by decide) (by decide)

/-- C4 witness: the layout facts hold at the concrete payload
`{my = 1.5f, name = 42, target = -3.25f}`. -/
theorem cyy_encode_layout_witness :
    (encode ⟨[0, 0, 192, 63], [42, 0, 0, 0], [0, 0, 80, 192]⟩).length = PACKET_TOTAL_SIZE ∧
    (encode ⟨[0, 0, 192, 63], [42, 0, 0, 0], [0, 0, 80, 192]⟩).getD 0 0 = PACKET_HEADER ∧
    ((encode ⟨[0, 0, 192, 63], [42, 0, 0, 0], [0, 0, 80, 192]⟩).drop 1).take 12
      = [0, 0, 192, 63] ++ [42, 0, 0, 0] ++ [0, 0, 80, 192] ∧
    (encode ⟨[0, 0, 192, 63], [42, 0, 0, 0], [0, 0, 80, 192]⟩).getD 13 0
      = send_Verify ([0, 0, 192, 63] ++ [42, 0, 0, 0] ++ [0, 0, 80, 192]) ∧
    (encode ⟨[0, 0, 192, 63], [42, 0, 0, 0], [0, 0, 80, 192]⟩).getD 14 0 = PACKET_FOOTER :=
  cyy_encode_layout ⟨[0, 0, 192, 63], [42, 0, 0, 0], [0, 0, 80, 192]⟩ rfl rfl rfl

end CyyPacketC

/-- C9. The three hand-copied encoders — `examples/CyyPacket.c`,
`generated/CyyPacket_header_send.c` and
`generated/Cyy_Packet_header_send.cpp` — agree byte for byte on every
payload with the same three field byte representations, and the common
output frame is 15 bytes long. -/
theorem encode_implementations_agree (my name target : List Nat)
    (h1 : my.length = 4) (h2 : name.length = 4) (h3 : target.length = 4) :
    CyyPacketC.encode ⟨my, name, target⟩ = CyyHeaderSendC.encode ⟨my, name, target⟩ ∧
    CyyPacketC.encode ⟨my, name, target⟩ = CyyHeaderSendCpp.encode ⟨my, name, target⟩ ∧
    (CyyPacketC.encode ⟨my, name, target⟩).length = 15 := by
  refine ⟨rfl, rfl, ?_⟩
  simp [CyyPacketC.encode, h1, h2, h3]

/-- C9 witness: the three encoders produce the identical concrete 15-byte
frame for the payload `{my = 1.5f, name = 42, target = -3.25f}`. -/
theorem encode_implementations_agree_witness :
    CyyPacketC.encode ⟨[0, 0, 192, 63], [42, 0, 0, 0], [0, 0, 80, 192]⟩
      = CyyHeaderSendC.encode ⟨[0, 0, 192, 63], [42, 0, 0, 0], [0, 0, 80, 192]⟩ ∧
    CyyPacketC.encode ⟨[0, 0, 192, 63], [42, 0, 0, 0], [0, 0, 80, 192]⟩
      = CyyHeaderSendCpp.encode ⟨[0, 0, 192, 63], [42, 0, 0, 0], [0, 0, 80, 192]⟩ ∧
    (CyyPacketC.encode ⟨[0, 0, 192, 63], [42, 0, 0, 0], [0, 0, 80, 192]⟩).length = 15 :=
  encode_implementations_agree [0, 0, 192, 63] [42, 0, 0, 0] [0, 0, 80, 192] rfl rfl rfl

namespace WeaponPacketC

/-- C10. The `WeaponPacket` codec applies no framing: `encode` emits
exactly the 20 raw payload bytes (the 16 `aim` bytes then the 4 `fire`
bytes) with no header, checksum, or footer; `decode` runs no checks (it
is a plain total function of the bytes); and decoding an encoded packet
reconstructs a struct whose field bytes equal those of the input. -/
theorem weapon_roundtrip (v : WeaponPacket)
    (h1 : v.aim.length = 16) (h2 : v.fire.length = 4) :
    encode v = v.aim ++ v.fire ∧ (encode v).length = PACKET_SIZE ∧
    decode (encode v) = v := by
  refine ⟨rfl, ?_, ?_⟩
  · simp [encode, PACKET_SIZE, h1, h2]
  · obtain ⟨aim, fire⟩ := v
    simp only at h1 h2
    unfold decode encode
    simp only [WeaponPacket.mk.injEq]
    constructor
    · rw [← h1, List.take_left]
    · rw [← h1, List.drop_left, List.take_of_length_le (le_of_eq h2)]

/-- C10 witness: a concrete `WeaponPacket` (16 `aim` bytes, 4 `fire`
bytes) round-trips through the frameless codec. -/
theorem weapon_roundtrip_witness :
    encode ⟨[1, 2, 3, 4, 5, 6, 7, 8, 9, 10, 11, 12, 13, 14, 15, 16], [200, 1, 0, 0]⟩
      = [1, 2, 3, 4, 5, 6, 7, 8, 9, 10, 11, 12, 13, 14, 15, 16] ++ [200, 1, 0, 0] ∧
    (encode ⟨[1, 2, 3, 4, 5, 6, 7, 8, 9, 10, 11, 12, 13, 14, 15, 16],
      [200, 1, 0, 0]⟩).length = PACKET_SIZE ∧
    decode (encode ⟨[1, 2, 3, 4, 5, 6, 7, 8, 9, 10, 11, 12, 13, 14, 15, 16], [200, 1, 0, 0]⟩)
      = ⟨[1, 2, 3, 4, 5, 6, 7, 8, 9, 10, 11, 12, 13, 14, 15, 16], [200, 1, 0, 0]⟩ :=
  weapon_roundtrip ⟨[1, 2, 3, 4, 5, 6, 7, 8, 9, 10, 11, 12, 13, 14, 15, 16], [200, 1, 0, 0]⟩
    rfl rfl

end WeaponPacketC
